import Mathlib

/-!
Shallow embedding of the credit-ledger and multi-service usage accounting
engine of the `universal-ai-platform` repository, together with proofs that
settle the claims of the specification against it.

Embedded source files:
* `billing/multi_service_tracker.py` — `ServiceType`, `ServicePricing`
  (the `PRICING` table and `calculate_service_cost`), `MultiServiceTracker`
  (`add_service_usage`, `complete_workflow`).
* `billing/credit_manager.py` — `LocalCreditManager` (`add_credits`,
  `deduct_credits`, `can_generate_api_key`) over the SQLAlchemy models of
  `billing/models.py` (`users.credit_balance`,
  `credit_transactions.transaction_id UNIQUE`).
* `payment/mtn_payment.py` — `CreditManager` (`add_credits`,
  `get_user_credits`, `deduct_credits`) over a sqlite store with
  `UNIQUE(transaction_id)` on `credit_transactions`.
* `api_gateway/main.py` — the settlement flow that calls
  `complete_workflow` and then `LocalCreditManager.deduct_credits`.

Modelling conventions:
* Python `int` is `ℤ`; Python `float` arithmetic is modelled exactly over
  `ℚ` (the pricing constants are decimal literals).
* Python `int(x)` (truncation toward zero) is `pyInt`; Python `//` on
  integers is `Int.fdiv` (floor division).
* A database table keyed by a unique column is a function
  `String → Option _` (the `users` table) or a list of rows (the
  `credit_transactions` and `multi_service_usage_records` tables).
* Each manager method is one atomic database transaction: when a commit
  would violate a uniqueness constraint (`transaction_id UNIQUE`, the
  usage-record primary key), the source rolls the whole session back and
  returns an error value; the embedding models this as returning the
  untouched state together with that error value.
* Wall-clock derived fields (`created_at`, `start_time`, durations) and
  free-text description fields are dropped; generated references such as
  `usage_{int(time.time())}` are passed in as an explicit `ref` argument.
-/

/-- `ServiceType` enum of `multi_service_tracker.py`. -/
inductive ServiceType where
  | gpt
  | voice_tts
  | voice_stt
  | vision
  | phone
  | realtime
  | ocr
  | embedding
deriving DecidableEq, Repr

/-- One value of the inner pricing dicts of `ServicePricing.PRICING`.
Each concrete dict carries exactly one credits key and one cost key; the
others are `none`, mirroring the `"…" in pricing` membership tests of
`calculate_service_cost`.  `credits_per_image` is an integer in the source
table (40, 50) and is multiplied without an `int(...)` cast, so it is kept
at `ℤ`. -/
structure PricingEntry where
  credits_per_1k_tokens : Option ℚ := none
  cost_per_1k_tokens : Option ℚ := none
  credits_per_char : Option ℚ := none
  cost_per_char : Option ℚ := none
  credits_per_minute : Option ℚ := none
  cost_per_minute : Option ℚ := none
  credits_per_image : Option ℤ := none
  cost_per_image : Option ℚ := none
deriving DecidableEq, Repr

namespace ServicePricing

/-- The `ServicePricing.PRICING` class attribute:
`cls.PRICING.get(service_type, {}).get(provider)`. -/
def PRICING (st : ServiceType) (provider : String) : Option PricingEntry :=
  match st with
  | .gpt =>
      if provider = "gpt-4o-mini" then
        some { credits_per_1k_tokens := some 1, cost_per_1k_tokens := some 0.00015 }
      else if provider = "gpt-4o" then
        some { credits_per_1k_tokens := some 8, cost_per_1k_tokens := some 0.0025 }
      else if provider = "gpt-4" then
        some { credits_per_1k_tokens := some 25, cost_per_1k_tokens := some 0.03 }
      else none
  | .voice_tts =>
      if provider = "cartesia" then
        some { credits_per_char := some 0.0008, cost_per_char := some 0.000011 }
      else if provider = "openai-tts" then
        some { credits_per_char := some 0.001, cost_per_char := some 0.000015 }
      else none
  | .voice_stt =>
      if provider = "deepgram" then
        some { credits_per_minute := some 8, cost_per_minute := some 0.0043 }
      else if provider = "openai-whisper" then
        some { credits_per_minute := some 10, cost_per_minute := some 0.006 }
      else none
  | .vision =>
      if provider = "gpt-4o-vision" then
        some { credits_per_image := some 40, cost_per_image := some 0.008 }
      else if provider = "gpt-4-vision" then
        some { credits_per_image := some 50, cost_per_image := some 0.01 }
      else none
  | .phone =>
      if provider = "twilio" then
        some { credits_per_minute := some 20, cost_per_minute := some 0.0085 }
      else if provider = "twilio-intl" then
        some { credits_per_minute := some 35, cost_per_minute := some 0.015 }
      else none
  | .realtime =>
      if provider = "livekit" then
        some { credits_per_minute := some 12, cost_per_minute := some 0.004 }
      else if provider = "livekit-egress" then
        some { credits_per_minute := some 15, cost_per_minute := some 0.005 }
      else none
  | .ocr => none
  | .embedding => none

end ServicePricing

/-- Python `int(x)`: truncation toward zero, computed on the reduced
numerator and denominator so that concrete inputs evaluate. -/
def pyInt (q : ℚ) : ℤ := q.num.tdiv q.den

/-- Return value of `calculate_service_cost` (the `unit_rate` display
string is dropped). -/
structure CostBreakdown where
  credits_used : ℤ
  cost_usd : ℚ
deriving DecidableEq, Repr

namespace ServicePricing

/-- `ServicePricing.calculate_service_cost(service_type, provider, units,
unit_type)` of `multi_service_tracker.py`. -/
def calculate_service_cost (st : ServiceType) (provider : String)
    (units : ℤ) (unit_type : String) : CostBreakdown :=
  match PRICING st provider with
  | none =>
      { credits_used := max 1 (Int.fdiv units 100)
        cost_usd := (units : ℚ) * 0.0001 }
  | some pricing =>
      if unit_type = "tokens" ∧ pricing.credits_per_1k_tokens.isSome then
        { credits_used := max 1 (pyInt ((units : ℚ) / 1000 * pricing.credits_per_1k_tokens.getD 0))
          cost_usd := (units : ℚ) / 1000 * pricing.cost_per_1k_tokens.getD 0 }
      else if unit_type = "characters" ∧ pricing.credits_per_char.isSome then
        { credits_used := max 1 (pyInt ((units : ℚ) * pricing.credits_per_char.getD 0))
          cost_usd := (units : ℚ) * pricing.cost_per_char.getD 0 }
      else if unit_type = "minutes" ∧ pricing.credits_per_minute.isSome then
        { credits_used := max 1 (pyInt ((units : ℚ) * pricing.credits_per_minute.getD 0))
          cost_usd := (units : ℚ) * pricing.cost_per_minute.getD 0 }
      else if unit_type = "images" ∧ pricing.credits_per_image.isSome then
        { credits_used := max 1 (units * pricing.credits_per_image.getD 0)
          cost_usd := (units : ℚ) * pricing.cost_per_image.getD 0 }
      else
        { credits_used := max 1 units
          cost_usd := (units : ℚ) * 0.001 }

end ServicePricing

/-- The nominal scaled credit value of the specification, stated from the
spec's words for the refinement claim about `calculate_service_cost`:
"Credits are computed by scaling `units` against `credits_per_unit` for
the matching `unit_kind`", with the documented unknown-provider fallback
"one credit per 100 units".  This is the pre-flooring rational value the
spec describes; it is compared with the source function's output. -/
def specScaledCredits (st : ServiceType) (provider : String)
    (units : ℤ) (unit_type : String) : ℚ :=
  match ServicePricing.PRICING st provider with
  | none => (units : ℚ) / 100
  | some pricing =>
      if unit_type = "tokens" ∧ pricing.credits_per_1k_tokens.isSome then
        (units : ℚ) / 1000 * pricing.credits_per_1k_tokens.getD 0
      else if unit_type = "characters" ∧ pricing.credits_per_char.isSome then
        (units : ℚ) * pricing.credits_per_char.getD 0
      else if unit_type = "minutes" ∧ pricing.credits_per_minute.isSome then
        (units : ℚ) * pricing.credits_per_minute.getD 0
      else if unit_type = "images" ∧ pricing.credits_per_image.isSome then
        (units : ℚ) * (pricing.credits_per_image.getD 0 : ℚ)
      else
        (units : ℚ)

/-- One row of the `credit_transactions` table (`billing/models.py` /
the sqlite table of `mtn_payment.py`).  `transaction_id` carries a
uniqueness constraint in both stores. -/
structure CreditTransaction where
  transaction_id : String
  user_id : String
  credits : ℤ
deriving DecidableEq, Repr

/-- The `users` table as a map from `user_id` to the stored
`credit_balance` (`none` = no row for that user). -/
def UsersTable := String → Option ℤ

/-- State of one credit store: the `users` table plus the append-only
`credit_transactions` table. -/
structure CreditDB where
  users : UsersTable
  transactions : List CreditTransaction

/-- The empty store: no user rows, no transactions. -/
def emptyCreditDB : CreditDB := ⟨fun _ => none, []⟩

/-- `UPDATE users SET credits = bal WHERE user_id = uid`: changes the row
only if it exists. -/
def updateUser (users : UsersTable) (uid : String) (bal : ℤ) : UsersTable :=
  fun u => if u = uid then (users u).map (fun _ => bal) else users u

/-- `INSERT INTO users (user_id, credits) VALUES (uid, bal)`. -/
def insertUser (users : UsersTable) (uid : String) (bal : ℤ) : UsersTable :=
  fun u => if u = uid then some bal else users u

/-- Does the ledger already contain a row with this `transaction_id`?
(The uniqueness constraint / idempotency probe.) -/
def hasRef (db : CreditDB) (ref : String) : Bool :=
  db.transactions.any (fun t => t.transaction_id == ref)

/-- The balance an external reader observes for `uid` (`0` when the user
row is absent, matching `user.credit_balance or 0` and the
`result[0] if result else 0` read of `mtn_payment.py`). -/
def balanceOf (db : CreditDB) (uid : String) : ℤ :=
  (db.users uid).getD 0

/-- Replay of the ledger for one account: the sum of `credits` over the
committed `credit_transactions` rows of that account. -/
def replayBalance (db : CreditDB) (uid : String) : ℤ :=
  ((db.transactions.filter (fun t => t.user_id == uid)).map
    (fun t => t.credits)).sum

namespace LocalCreditManager

/-- `LocalCreditManager.add_credits(user_id, credits, transaction_id, …)`
of `billing/credit_manager.py`.  The source loads the user row, adds
`credits` to `credit_balance`, inserts a `CreditTransaction` and commits;
`CreditTransaction.transaction_id` is `unique=True` (`billing/models.py`),
so a duplicate reference makes the commit raise, the session roll back,
and the method return `False` with nothing persisted. -/
def add_credits (db : CreditDB) (user_id : String) (credits : ℤ)
    (transaction_id : String) : Bool × CreditDB :=
  match db.users user_id with
  | none => (false, db)
  | some bal =>
      if hasRef db transaction_id then
        (false, db)
      else
        (true,
         ⟨updateUser db.users user_id (bal + credits),
          db.transactions ++ [⟨transaction_id, user_id, credits⟩]⟩)

/-- Result of `LocalCreditManager.deduct_credits`: the dicts the source
returns, minus the free-text fields. -/
inductive DeductResult where
  | userNotFound
  | insufficient (current_credits required_credits : ℤ)
  | dbError
  | ok (new_balance deducted : ℤ)
deriving DecidableEq, Repr

/-- `LocalCreditManager.deduct_credits(user_id, credits, description)` of
`billing/credit_manager.py`.  `ref` is the generated
`usage_{int(time.time())}` transaction id; if it collides with an existing
ledger row the unique constraint aborts the commit (the
`"Database error"` branch) and nothing is persisted. -/
def deduct_credits (db : CreditDB) (user_id : String) (credits : ℤ)
    (ref : String) : DeductResult × CreditDB :=
  match db.users user_id with
  | none => (.userNotFound, db)
  | some bal =>
      if bal < credits then
        (.insufficient bal credits, db)
      else if hasRef db ref then
        (.dbError, db)
      else
        (.ok (bal - credits) credits,
         ⟨updateUser db.users user_id (bal - credits),
          db.transactions ++ [⟨ref, user_id, -credits⟩]⟩)

/-- `self.minimum_credits_for_api_key` (env default `"5000"`). -/
def minimum_credits_for_api_key : ℤ := 5000

/-- The eligibility dict returned by `can_generate_api_key`. -/
structure KeyCheck where
  can_generate : Bool
  current_credits : ℤ
  required_credits : ℤ
  deficit : ℤ
  is_first_key : Bool
deriving DecidableEq, Repr

/-- `LocalCreditManager.can_generate_api_key(user_id)` of
`billing/credit_manager.py`, as a function of the loaded user row
(`none` = "User not found") and the count of non-revoked `APIKey` rows of
that user.  `current_credits` is `user.credit_balance or 0`. -/
def can_generate_api_key (user : Option ℤ) (existing_keys_count : ℕ) :
    Option KeyCheck :=
  match user with
  | none => none
  | some current_credits =>
      if existing_keys_count = 0 then
        some ⟨decide (minimum_credits_for_api_key ≤ current_credits),
              current_credits,
              minimum_credits_for_api_key,
              max 0 (minimum_credits_for_api_key - current_credits),
              true⟩
      else
        some ⟨decide (0 < current_credits),
              current_credits,
              1,
              max 0 (1 - current_credits),
              false⟩

end LocalCreditManager

namespace CreditManager

/-- `CreditManager.get_user_credits(user_id)` of `payment/mtn_payment.py`. -/
def get_user_credits (db : CreditDB) (user_id : String) : ℤ :=
  (db.users user_id).getD 0

/-- `CreditManager.add_credits(user_id, credits, transaction_id, …)` of
`payment/mtn_payment.py`: inside one sqlite transaction it first probes
`credit_transactions` for `transaction_id` and returns `True` untouched
when present (idempotent replay); otherwise it updates the user row (or
inserts one when absent) and appends the transaction row. -/
def add_credits (db : CreditDB) (user_id : String) (credits : ℤ)
    (transaction_id : String) : Bool × CreditDB :=
  if hasRef db transaction_id then
    (true, db)
  else
    match db.users user_id with
    | some bal =>
        (true,
         ⟨updateUser db.users user_id (bal + credits),
          db.transactions ++ [⟨transaction_id, user_id, credits⟩]⟩)
    | none =>
        (true,
         ⟨insertUser db.users user_id credits,
          db.transactions ++ [⟨transaction_id, user_id, credits⟩]⟩)

/-- `CreditManager.deduct_credits(user_id, credits, description)` of
`payment/mtn_payment.py`: reads the current balance (0 when the user row
is absent); if it is at least `credits`, runs the `UPDATE` (a no-op on an
absent row) and inserts a `credit_usage` row of `-credits`, else returns
`False`.  `ref` is the generated `deduct_{…}` transaction id; a collision
with an existing row aborts the transaction under `UNIQUE(transaction_id)`
and returns `False` with nothing persisted. -/
def deduct_credits (db : CreditDB) (user_id : String) (credits : ℤ)
    (ref : String) : Bool × CreditDB :=
  let current := get_user_credits db user_id
  if credits ≤ current then
    if hasRef db ref then
      (false, db)
    else
      (true,
       ⟨updateUser db.users user_id (current - credits),
        db.transactions ++ [⟨ref, user_id, -credits⟩]⟩)
  else
    (false, db)

end CreditManager

/-- One element of a workflow's `services_used` list as built by
`add_service_usage` (timestamp and metadata dropped). -/
structure ServiceUsageEntry where
  service_type : ServiceType
  provider : String
  units_consumed : ℤ
  unit_type : String
  credits_used : ℤ
  cost_usd : ℚ
deriving DecidableEq, Repr

/-- The in-memory workflow context stored by `start_workflow_tracking` as
the dynamic attribute `self._workflow_<workflow_id>`. -/
structure WorkflowContext where
  workflow_id : String
  api_key : String
  user_id : String
  workflow_name : String
  endpoint : String
  services_used : List ServiceUsageEntry
deriving DecidableEq, Repr

/-- One row of the `multi_service_usage_records` table
(`MultiServiceUsageRecord`); `id` is the primary key and is set to the
workflow id by `complete_workflow`. -/
structure UsageRecord where
  id : String
  api_key : String
  user_id : String
  workflow_name : String
  services_used : List ServiceUsageEntry
  total_credits_used : ℤ
  total_cost_usd : ℚ
  status_code : ℤ
deriving DecidableEq, Repr

/-- State of one `MultiServiceTracker`: the dynamic
`_workflow_<id>` attributes (as a map from workflow id to context) plus
the `multi_service_usage_records` table behind `self.session`. -/
structure TrackerState where
  workflows : String → Option WorkflowContext
  records : List UsageRecord

namespace MultiServiceTracker

/-- Result of `add_service_usage`: either the
`{"success": False, "error": "Workflow not found"}` dict or the success
dict carrying the new `service_usage` entry and its `credits_used`. -/
inductive AddUsageResult where
  | workflowNotFound
  | ok (service_usage : ServiceUsageEntry) (credits_used : ℤ)
deriving DecidableEq, Repr

/-- `MultiServiceTracker.add_service_usage(workflow_id, service_type,
provider, units_consumed, unit_type, metadata)` of
`multi_service_tracker.py`. -/
def add_service_usage (s : TrackerState) (workflow_id : String)
    (service_type : ServiceType) (provider : String)
    (units_consumed : ℤ) (unit_type : String) :
    AddUsageResult × TrackerState :=
  match s.workflows workflow_id with
  | none => (.workflowNotFound, s)
  | some ctx =>
      let cost_breakdown :=
        ServicePricing.calculate_service_cost service_type provider
          units_consumed unit_type
      let service_usage : ServiceUsageEntry :=
        ⟨service_type, provider, units_consumed, unit_type,
         cost_breakdown.credits_used, cost_breakdown.cost_usd⟩
      (.ok service_usage cost_breakdown.credits_used,
       { s with
           workflows := fun w =>
             if w = workflow_id then
               some { ctx with services_used := ctx.services_used ++ [service_usage] }
             else s.workflows w })

/-- Result of `complete_workflow`: the
`{"success": False, "error": …}` dicts (workflow missing, or the commit
raising) or the success dict. -/
inductive CompleteResult where
  | workflowNotFound
  | dbError
  | ok (workflow_id : String) (total_credits_used : ℤ)
      (total_cost_usd : ℚ) (services_count : ℕ)
deriving DecidableEq, Repr

/-- `MultiServiceTracker.complete_workflow(workflow_id, status_code,
error_message)` of `multi_service_tracker.py`: sums the context's
`credits_used` and `cost_usd`, inserts one `MultiServiceUsageRecord` with
`id = workflow_id`, commits, and deletes the `_workflow_<id>` attribute.
A primary-key collision on `id` makes the commit raise; the session rolls
back, the context is kept, and the error dict is returned.
`duration_seconds` is wall-clock derived and dropped. -/
def complete_workflow (s : TrackerState) (workflow_id : String)
    (status_code : ℤ) : CompleteResult × TrackerState :=
  match s.workflows workflow_id with
  | none => (.workflowNotFound, s)
  | some ctx =>
      let total_credits := (ctx.services_used.map (fun u => u.credits_used)).sum
      let total_cost := (ctx.services_used.map (fun u => u.cost_usd)).sum
      if s.records.any (fun r => r.id == workflow_id) then
        (.dbError, s)
      else
        (.ok workflow_id total_credits total_cost ctx.services_used.length,
         { workflows := fun w => if w = workflow_id then none else s.workflows w
           records := s.records ++
             [⟨workflow_id, ctx.api_key, ctx.user_id, ctx.workflow_name,
               ctx.services_used, total_credits, total_cost, status_code⟩] })

end MultiServiceTracker

/-- Combined state of the engine: the tracker (usage records plus live
workflow contexts) and the credit store of `LocalCreditManager`
(`users` / `credit_transactions`).  `complete_workflow` only touches the
tracker component; the lift makes that explicit. -/
structure SystemState where
  tracker : TrackerState
  creditDB : CreditDB

/-- `complete_workflow` lifted to the combined state: the source method
reads and writes only the tracker tables, never `users` or
`credit_transactions`. -/
def system_complete_workflow (sys : SystemState) (workflow_id : String)
    (status_code : ℤ) : MultiServiceTracker.CompleteResult × SystemState :=
  let r := MultiServiceTracker.complete_workflow sys.tracker workflow_id status_code
  (r.1, ⟨r.2, sys.creditDB⟩)

/-- The settlement flow of `api_gateway/main.py` (about lines 395–415):
call `complete_workflow`; when it reports success, deduct
`total_credits_used` from the user via
`LocalCreditManager.deduct_credits` (whose generated transaction id —
`usage_{int(time.time())}` — is passed here as `usage_ref`); on any
failure the balance is left alone and only a warning is logged. -/
def gateway_settle_workflow (sys : SystemState) (workflow_id : String)
    (user_id : String) (usage_ref : String) :
    MultiServiceTracker.CompleteResult × SystemState :=
  let r := system_complete_workflow sys workflow_id 200
  match r.1 with
  | .ok _ total_credits _ _ =>
      let d := LocalCreditManager.deduct_credits r.2.creditDB user_id
        total_credits usage_ref
      (r.1, ⟨r.2.tracker, d.2⟩)
  | _ => r

/-- One grant (`add_credits`) or debit (`deduct_credits`) call, with the
external reference it commits under. -/
inductive CreditOp where
  | grant (user_id : String) (credits : ℤ) (ref : String)
  | debit (user_id : String) (credits : ℤ) (ref : String)
deriving DecidableEq, Repr

/-- Run one operation through `LocalCreditManager`, keeping the resulting
store. -/
def runLocalOp (db : CreditDB) : CreditOp → CreditDB
  | .grant u c r => (LocalCreditManager.add_credits db u c r).2
  | .debit u c r => (LocalCreditManager.deduct_credits db u c r).2

/-- Run a sequence of operations through `LocalCreditManager`. -/
def runLocalOps (db : CreditDB) (ops : List CreditOp) : CreditDB :=
  ops.foldl runLocalOp db

/-- Run one operation through the `CreditManager` of `mtn_payment.py`. -/
def runMtnOp (db : CreditDB) : CreditOp → CreditDB
  | .grant u c r => (CreditManager.add_credits db u c r).2
  | .debit u c r => (CreditManager.deduct_credits db u c r).2

/-- Run a sequence of operations through the `CreditManager` of
`mtn_payment.py`. -/
def runMtnOps (db : CreditDB) (ops : List CreditOp) : CreditDB :=
  ops.foldl runMtnOp db

/-- Every debit of the sequence asks for a non-negative amount (debits in
the engine carry the priced `credits_used`, which is at least 1). -/
def DebitsNonneg (ops : List CreditOp) : Prop :=
  ∀ op ∈ ops, ∀ u c r, op = CreditOp.debit u c r → 0 ≤ c

/-- Every observable balance of the store is non-negative. -/
def NonNegBalances (db : CreditDB) : Prop :=
  ∀ u, 0 ≤ balanceOf db u

/-- The cached balance of every account agrees with the replay of the
committed ledger rows of that account. -/
def Conserves (db : CreditDB) : Prop :=
  ∀ u, balanceOf db u = replayBalance db u

/-- Run a sequence of bare `deduct_credits` calls
(`(user_id, credits, ref)` triples) through `LocalCreditManager`. -/
def runLocalDeducts (db : CreditDB) (calls : List (String × ℤ × String)) :
    CreditDB :=
  calls.foldl
    (fun d p => (LocalCreditManager.deduct_credits d p.1 p.2.1 p.2.2).2) db

/-- Run a sequence of bare `deduct_credits` calls through the
`CreditManager` of `mtn_payment.py`. -/
def runMtnDeducts (db : CreditDB) (calls : List (String × ℤ × String)) :
    CreditDB :=
  calls.foldl
    (fun d p => (CreditManager.deduct_credits d p.1 p.2.1 p.2.2).2) db

/-- A priced usage entry of 10 credits: 10000 `gpt-4o-mini` tokens. -/
def entryTen : ServiceUsageEntry :=
  ⟨.gpt, "gpt-4o-mini", 10000, "tokens", 10, 0.0015⟩

/-- A priced usage entry of 5 credits: 5000 `gpt-4o-mini` tokens. -/
def entryFive : ServiceUsageEntry :=
  ⟨.gpt, "gpt-4o-mini", 5000, "tokens", 5, 0.00075⟩

/-- A live workflow of user `u1` holding entries priced at 10 and 5
credits (the worked example of the specification). -/
def exampleWorkflow : WorkflowContext :=
  ⟨"wf1", "key1", "u1", "voice_chat", "/api/v1/agent/message",
   [entryTen, entryFive]⟩

/-- A combined state: the workflow above is live, no usage records are
committed yet, and user `u1` holds 100 credits. -/
def exampleSystem : SystemState :=
  ⟨⟨fun w => if w = "wf1" then some exampleWorkflow else none, []⟩,
   ⟨fun u => if u = "u1" then some 100 else none, []⟩⟩

/-- A tracker whose only live workflow holds a single entry of 10
credits. -/
def exampleOpenTracker : TrackerState :=
  ⟨fun w =>
     if w = "wf1" then
       some ⟨"wf1", "key1", "u1", "voice_chat", "/api/v1/agent/message",
             [entryTen]⟩
     else none,
   []⟩

/-- A credit store holding one user `u1` with balance 100 and an empty
ledger. -/
def exampleCreditDB : CreditDB :=
  ⟨fun u => if u = "u1" then some 100 else none, []⟩

/-- A fresh account: user `u1` registered with balance 0 and no ledger
rows. -/
def exampleFreshDB : CreditDB :=
  ⟨fun u => if u = "u1" then some 0 else none, []⟩

/-! ### Helper lemmas -/

theorem pyInt_eq_floor {q : ℚ} (h : 0 ≤ q) : pyInt q = ⌊q⌋ := by
  rw [pyInt, Rat.floor_def]
  exact Int.tdiv_eq_ediv (Rat.num_nonneg.mpr h) (Int.ofNat_nonneg q.den)

theorem PRICING_rates_nonneg (st : ServiceType) (p : String)
    (pr : PricingEntry) (h : ServicePricing.PRICING st p = some pr) :
    0 ≤ pr.credits_per_1k_tokens.getD 0 ∧ 0 ≤ pr.credits_per_char.getD 0 ∧
    0 ≤ pr.credits_per_minute.getD 0 ∧ 0 ≤ pr.credits_per_image.getD 0 := by
  cases st <;> simp only [ServicePricing.PRICING] at h <;>
    (try split_ifs at h) <;> simp_all <;> subst h <;> norm_num

theorem local_deduct_nonneg_step (db : CreditDB) (uid ref : String) (c : ℤ)
    (h : NonNegBalances db) :
    NonNegBalances (LocalCreditManager.deduct_credits db uid c ref).2 := by
  intro u
  unfold LocalCreditManager.deduct_credits
  cases hu : db.users uid with
  | none => exact h u
  | some bal =>
      simp only
      split_ifs with h1 h2
      · exact h u
      · exact h u
      · by_cases hq : u = uid
        · subst hq
          simp [balanceOf, updateUser, hu, sub_nonneg, not_lt.mp h1]
        · simpa [balanceOf, updateUser, hq] using h u

theorem mtn_deduct_nonneg_step (db : CreditDB) (uid ref : String) (c : ℤ)
    (h : NonNegBalances db) :
    NonNegBalances (CreditManager.deduct_credits db uid c ref).2 := by
  intro u
  unfold CreditManager.deduct_credits
  simp only
  split_ifs with h1 h2
  · exact h u
  · by_cases hq : u = uid
    · subst hq
      cases hu : db.users u with
      | none => simp [balanceOf, updateUser, hu]
      | some bal =>
          have : c ≤ bal := by
            simpa [CreditManager.get_user_credits, hu] using h1
          simp [balanceOf, updateUser, hu, CreditManager.get_user_credits,
            sub_nonneg, this]
    · simpa [balanceOf, updateUser, hq] using h u
  · exact h u

theorem local_deducts_nonneg (db : CreditDB) (h : NonNegBalances db)
    (calls : List (String × ℤ × String)) :
    NonNegBalances (runLocalDeducts db calls) := by
  induction calls generalizing db with
  | nil => exact h
  | cons p rest ih =>
      exact ih _ (local_deduct_nonneg_step db p.1 p.2.2 p.2.1 h)

theorem mtn_deducts_nonneg (db : CreditDB) (h : NonNegBalances db)
    (calls : List (String × ℤ × String)) :
    NonNegBalances (runMtnDeducts db calls) := by
  induction calls generalizing db with
  | nil => exact h
  | cons p rest ih =>
      exact ih _ (mtn_deduct_nonneg_step db p.1 p.2.2 p.2.1 h)

theorem replay_append (us : UsersTable) (txs : List CreditTransaction)
    (e : CreditTransaction) (u : String) :
    replayBalance ⟨us, txs ++ [e]⟩ u
      = replayBalance ⟨us, txs⟩ u
          + (if e.user_id = u then e.credits else 0) := by
  simp only [replayBalance, List.filter_append, List.map_append,
    List.sum_append]
  by_cases hq : e.user_id = u <;> simp [hq]

theorem local_grant_conserves_step (db : CreditDB) (uid ref : String)
    (c : ℤ) (h : Conserves db) :
    Conserves (LocalCreditManager.add_credits db uid c ref).2 := by
  unfold LocalCreditManager.add_credits
  cases hu : db.users uid with
  | none => exact h
  | some bal =>
      simp only
      split_ifs with h1
      · exact h
      · intro u
        rw [replay_append]
        by_cases hq : u = uid
        · subst hq
          have hb : balanceOf db u = bal := by simp [balanceOf, hu]
          simp only [balanceOf, updateUser, if_pos rfl, hu, Option.map_some]
          have hc := h u
          rw [hb] at hc
          rw [show replayBalance ⟨updateUser db.users u (bal + c), db.transactions⟩ u = replayBalance db u from rfl, ← hc]
          simp
        · have he : updateUser db.users uid (bal + c) u = db.users u := by
            simp [updateUser, hq]
          simp only [balanceOf, he]
          have hc := h u
          simp only [balanceOf] at hc
          rw [show replayBalance ⟨updateUser db.users uid (bal + c), db.transactions⟩ u = replayBalance db u from rfl]
          simp [hc, Ne.symm hq]

theorem local_deduct_conserves_step (db : CreditDB) (uid ref : String)
    (c : ℤ) (h : Conserves db) :
    Conserves (LocalCreditManager.deduct_credits db uid c ref).2 := by
  unfold LocalCreditManager.deduct_credits
  cases hu : db.users uid with
  | none => exact h
  | some bal =>
      simp only
      split_ifs with h1 h2
      · exact h
      · exact h
      · intro u
        rw [replay_append]
        by_cases hq : u = uid
        · subst hq
          have hb : balanceOf db u = bal := by simp [balanceOf, hu]
          simp only [balanceOf, updateUser, if_pos rfl, hu, Option.map_some]
          have hc := h u
          rw [hb] at hc
          rw [show replayBalance ⟨updateUser db.users u (bal - c), db.transactions⟩ u = replayBalance db u from rfl, ← hc]
          simp
          ring
        · have he : updateUser db.users uid (bal - c) u = db.users u := by
            simp [updateUser, hq]
          simp only [balanceOf, he]
          have hc := h u
          simp only [balanceOf] at hc
          rw [show replayBalance ⟨updateUser db.users uid (bal - c), db.transactions⟩ u = replayBalance db u from rfl]
          simp [hc, Ne.symm hq]

theorem mtn_grant_conserves_step (db : CreditDB) (uid ref : String)
    (c : ℤ) (h : Conserves db) :
    Conserves (CreditManager.add_credits db uid c ref).2 := by
  unfold CreditManager.add_credits
  split_ifs with h1
  · exact h
  · cases hu : db.users uid with
    | some bal =>
        intro u
        rw [replay_append]
        by_cases hq : u = uid
        · subst hq
          have hb : balanceOf db u = bal := by simp [balanceOf, hu]
          simp only [balanceOf, updateUser, if_pos rfl, hu, Option.map_some]
          have hc := h u
          rw [hb] at hc
          rw [show replayBalance ⟨updateUser db.users u (bal + c), db.transactions⟩ u = replayBalance db u from rfl, ← hc]
          simp
        · have he : updateUser db.users uid (bal + c) u = db.users u := by
            simp [updateUser, hq]
          simp only [balanceOf, he]
          have hc := h u
          simp only [balanceOf] at hc
          rw [show replayBalance ⟨updateUser db.users uid (bal + c), db.transactions⟩ u = replayBalance db u from rfl]
          simp [hc, Ne.symm hq]
    | none =>
        intro u
        rw [replay_append]
        by_cases hq : u = uid
        · subst hq
          have hc := h u
          simp only [balanceOf, hu, Option.getD_none] at hc
          simp only [balanceOf, insertUser, if_pos rfl, Option.getD_some]
          rw [show replayBalance ⟨insertUser db.users u c, db.transactions⟩ u = replayBalance db u from rfl, ← hc]
          simp
        · have he : insertUser db.users uid c u = db.users u := by
            simp [insertUser, hq]
          simp only [balanceOf, he]
          have hc := h u
          simp only [balanceOf] at hc
          rw [show replayBalance ⟨insertUser db.users uid c, db.transactions⟩ u = replayBalance db u from rfl]
          simp [hc, Ne.symm hq]

theorem mtn_deduct_conserves_step (db : CreditDB) (uid ref : String)
    (c : ℤ) (hc0 : 0 ≤ c) (h : Conserves db) :
    Conserves (CreditManager.deduct_credits db uid c ref).2 := by
  unfold CreditManager.deduct_credits
  simp only
  split_ifs with h1 h2
  · exact h
  · intro u
    rw [replay_append]
    by_cases hq : u = uid
    · subst hq
      cases hu : db.users u with
      | some bal =>
          have hb : CreditManager.get_user_credits db u = bal := by
            simp [CreditManager.get_user_credits, hu]
          have hc := h u
          simp only [balanceOf, hu, Option.getD_some] at hc
          simp only [balanceOf, updateUser, if_pos rfl, hu, Option.map_some,
            Option.getD_some, hb]
          rw [show replayBalance ⟨updateUser db.users u (bal - c), db.transactions⟩ u = replayBalance db u from rfl, ← hc]
          simp
          ring
      | none =>
          have hz : c = 0 := by
            have : c ≤ CreditManager.get_user_credits db u := h1
            simp only [CreditManager.get_user_credits, hu,
              Option.getD_none] at this
            omega
          have hc := h u
          simp only [balanceOf, hu, Option.getD_none] at hc
          simp only [balanceOf, updateUser, if_pos rfl, hu, Option.map_none,
            Option.getD_none]
          rw [show replayBalance ⟨updateUser db.users u (CreditManager.get_user_credits db u - c), db.transactions⟩ u = replayBalance db u from rfl, ← hc]
          simp [hz]
    · have he : updateUser db.users uid (CreditManager.get_user_credits db uid - c) u = db.users u := by
        simp [updateUser, hq]
      simp only [balanceOf, he]
      have hcu := h u
      simp only [balanceOf] at hcu
      rw [show replayBalance ⟨updateUser db.users uid (CreditManager.get_user_credits db uid - c), db.transactions⟩ u = replayBalance db u from rfl]
      simp [hcu, Ne.symm hq]
  · exact h

theorem local_ops_conserve (db : CreditDB) (h : Conserves db)
    (ops : List CreditOp) : Conserves (runLocalOps db ops) := by
  induction ops generalizing db with
  | nil => exact h
  | cons op rest ih =>
      cases op with
      | grant u c r => exact ih _ (local_grant_conserves_step db u r c h)
      | debit u c r => exact ih _ (local_deduct_conserves_step db u r c h)

theorem mtn_ops_conserve (db : CreditDB) (h : Conserves db)
    (ops : List CreditOp) (hd : DebitsNonneg ops) :
    Conserves (runMtnOps db ops) := by
  induction ops generalizing db with
  | nil => exact h
  | cons op rest ih =>
      have hrest : DebitsNonneg rest := by
        intro o ho u c r he
        exact hd o (List.mem_cons_of_mem _ ho) u c r he
      cases op with
      | grant u c r => exact ih _ (mtn_grant_conserves_step db u r c h) hrest
      | debit u c r =>
          have hc0 : 0 ≤ c := hd _ (List.mem_cons_self _ _) u c r rfl
          exact ih _ (mtn_deduct_conserves_step db u r c hc0 h) hrest

/-! ### Claim theorems -/

/-- C8: for every service type, provider and unit kind, pricing a
strictly positive number of units returns the spec's nominal scaled
value floored to an integer and clamped by the hard floor of 1 credit;
in particular the result is at least 1 even when the scaled value
rounds to 0. -/
theorem calculate_service_cost_pricing_floor (st : ServiceType)
    (p : String) (u : ℤ) (ut : String) (hu : 0 < u) :
    (ServicePricing.calculate_service_cost st p u ut).credits_used
      = max 1 ⌊specScaledCredits st p u ut⌋ ∧
    1 ≤ (ServicePricing.calculate_service_cost st p u ut).credits_used := by
  have hq : (0 : ℚ) ≤ (u : ℚ) := by exact_mod_cast le_of_lt hu
  cases hm : ServicePricing.PRICING st p with
  | none =>
      constructor
      · simp only [ServicePricing.calculate_service_cost, specScaledCredits, hm]
        have h100 : ((100 : ℚ)) = ((100 : ℕ) : ℚ) := by norm_num
        rw [h100, Rat.floor_intCast_div_natCast, Int.fdiv_eq_ediv u (by norm_num)]
        rfl
      · simp only [ServicePricing.calculate_service_cost, hm]
        exact le_max_left _ _
  | some pr =>
      obtain ⟨h1k, hch, hmin, himg⟩ := PRICING_rates_nonneg st p pr hm
      constructor
      · simp only [ServicePricing.calculate_service_cost, specScaledCredits, hm]
        split_ifs with htok hchar hmn him
        · rw [pyInt_eq_floor (by positivity)]
        · rw [pyInt_eq_floor (by positivity)]
        · rw [pyInt_eq_floor (by positivity)]
        · rw [show ((u : ℚ) * ((pr.credits_per_image.getD 0 : ℤ) : ℚ)) = (((u * pr.credits_per_image.getD 0 : ℤ)) : ℚ) by push_cast; ring,
            Int.floor_intCast]
        · rw [Int.floor_intCast]
      · simp only [ServicePricing.calculate_service_cost, hm]
        split_ifs <;> exact le_max_left _ _

/-- Witness for C8 at 100 `cartesia` characters: the nominal rate
0.0008 scales 100 units to 0.08, which floors to 0, yet the charge is
clamped to at least 1. -/
theorem calculate_service_cost_pricing_floor_witness :
    ((ServicePricing.calculate_service_cost .voice_tts "cartesia" 100 "characters").credits_used
        = max 1 ⌊specScaledCredits .voice_tts "cartesia" 100 "characters"⌋ ∧
      1 ≤ (ServicePricing.calculate_service_cost .voice_tts "cartesia" 100 "characters").credits_used) ∧
    (ServicePricing.calculate_service_cost .voice_tts "cartesia" 100 "characters").credits_used = 1 := by
  refine ⟨calculate_service_cost_pricing_floor .voice_tts "cartesia" 100 "characters" (by decide), ?_⟩
  have h : (100 : ℚ) * (0.0008 : ℚ) = (2 : ℚ) / 25 := by norm_num
  have h2 : pyInt ((2 : ℚ) / 25) = 0 := by
    rw [show ((2 : ℚ) / 25) = ((2 : ℤ) : ℚ) / ((25 : ℕ) : ℚ) by norm_num]
    rw [pyInt_eq_floor (by positivity), Rat.floor_intCast_div_natCast]
    decide
  simp [ServicePricing.calculate_service_cost, ServicePricing.PRICING, h, h2]

/-- C10: pricing zero units returns exactly 1 credit in every branch of
`calculate_service_cost`, the unknown-provider fallback included — a
zero-unit usage entry is still charged at least one credit. -/
theorem calculate_service_cost_zero_units (st : ServiceType) (p : String)
    (ut : String) :
    (ServicePricing.calculate_service_cost st p 0 ut).credits_used = 1 ∧
    1 ≤ (ServicePricing.calculate_service_cost st p 0 ut).credits_used := by
  have h1 : (ServicePricing.calculate_service_cost st p 0 ut).credits_used = 1 := by
    cases hm : ServicePricing.PRICING st p with
    | none => simp [ServicePricing.calculate_service_cost, hm]
    | some pr =>
        simp only [ServicePricing.calculate_service_cost, hm]
        split_ifs <;> simp [pyInt, Rat.num_intCast]
  exact ⟨h1, le_of_eq h1.symm⟩

/-- C9: with the user row loaded, the first access key is allowed
exactly when the balance reaches `minimum_credits_for_api_key` (5000),
with `deficit = max 0 (threshold - balance)`, and any further key is
allowed exactly when the balance is strictly positive. -/
theorem can_generate_api_key_gating (bal : ℤ) (keys : ℕ)
    (k : LocalCreditManager.KeyCheck)
    (hk : LocalCreditManager.can_generate_api_key (some bal) keys = some k) :
    (keys = 0 →
       (k.can_generate = true ↔ LocalCreditManager.minimum_credits_for_api_key ≤ bal) ∧
       k.deficit = max 0 (LocalCreditManager.minimum_credits_for_api_key - bal) ∧
       k.is_first_key = true) ∧
    (keys ≠ 0 → (k.can_generate = true ↔ 0 < bal)) := by
  simp only [LocalCreditManager.can_generate_api_key] at hk
  by_cases h0 : keys = 0
  · rw [if_pos h0] at hk
    cases hk
    refine ⟨fun _ => ⟨?_, rfl, rfl⟩, fun hne => absurd h0 hne⟩
    simp [decide_eq_true_iff]
  · rw [if_neg h0] at hk
    cases hk
    refine ⟨fun he => absurd he h0, fun _ => ?_⟩
    simp [decide_eq_true_iff]

/-- Witness for C9 at the spec's example: balance 4999 with no existing
key is refused with deficit 1; balance 5000 (one more credit granted) is
allowed. -/
theorem can_generate_api_key_gating_witness :
    (((LocalCreditManager.KeyCheck.mk false 4999 5000 1 true).can_generate = true
        ↔ LocalCreditManager.minimum_credits_for_api_key ≤ (4999 : ℤ)) ∧
      (LocalCreditManager.KeyCheck.mk false 4999 5000 1 true).deficit
        = max 0 (LocalCreditManager.minimum_credits_for_api_key - 4999) ∧
      (LocalCreditManager.KeyCheck.mk false 4999 5000 1 true).is_first_key = true) ∧
    (((LocalCreditManager.KeyCheck.mk true 5000 5000 0 true).can_generate = true
        ↔ LocalCreditManager.minimum_credits_for_api_key ≤ (5000 : ℤ))) :=
  ⟨(can_generate_api_key_gating 4999 0 _ (by decide)).1 rfl,
   ((can_generate_api_key_gating 5000 0 _ (by decide)).1 rfl).1⟩

/-- C2: grant is idempotent in its external reference, in both credit
managers.  With the user row present and a fresh reference, the first
`add_credits` succeeds and raises the balance by the granted amount;
repeating the call with the same reference and amount leaves the store
untouched (the second `LocalCreditManager` call reports failure after
the uniqueness rollback, the second `CreditManager` call reports the
idempotent success), so the balance rises exactly once. -/
theorem add_credits_idempotent_in_reference (db : CreditDB)
    (uid ref : String) (c bal : ℤ) (hu : db.users uid = some bal)
    (hr : hasRef db ref = false) :
    ((LocalCreditManager.add_credits db uid c ref).1 = true ∧
     balanceOf (LocalCreditManager.add_credits db uid c ref).2 uid = bal + c ∧
     LocalCreditManager.add_credits
         (LocalCreditManager.add_credits db uid c ref).2 uid c ref
       = (false, (LocalCreditManager.add_credits db uid c ref).2)) ∧
    ((CreditManager.add_credits db uid c ref).1 = true ∧
     balanceOf (CreditManager.add_credits db uid c ref).2 uid
       = balanceOf db uid + c ∧
     CreditManager.add_credits
         (CreditManager.add_credits db uid c ref).2 uid c ref
       = (true, (CreditManager.add_credits db uid c ref).2)) := by
  constructor
  · simp only [LocalCreditManager.add_credits, hu, hr]
    refine ⟨rfl, ?_, ?_⟩
    · simp [balanceOf, updateUser, hu]
    · simp [LocalCreditManager.add_credits, updateUser, hu, hasRef]
  · simp only [CreditManager.add_credits, hr]
    cases hu2 : db.users uid with
    | none =>
        simp only [hu2]
        refine ⟨rfl, ?_, ?_⟩
        · simp [balanceOf, insertUser, hu2]
        · simp [CreditManager.add_credits, hasRef]
    | some bal2 =>
        simp only [hu2]
        refine ⟨rfl, ?_, ?_⟩
        · simp [balanceOf, updateUser, hu2]
        · simp [CreditManager.add_credits, hasRef]

/-- Witness for C2: granting 100 credits under reference `tx1` to user
`u1` (balance 100) twice. -/
theorem add_credits_idempotent_in_reference_witness :
    ((LocalCreditManager.add_credits exampleCreditDB "u1" 100 "tx1").1 = true ∧
     balanceOf (LocalCreditManager.add_credits exampleCreditDB "u1" 100 "tx1").2 "u1" = 100 + 100 ∧
     LocalCreditManager.add_credits
         (LocalCreditManager.add_credits exampleCreditDB "u1" 100 "tx1").2 "u1" 100 "tx1"
       = (false, (LocalCreditManager.add_credits exampleCreditDB "u1" 100 "tx1").2)) ∧
    ((CreditManager.add_credits exampleCreditDB "u1" 100 "tx1").1 = true ∧
     balanceOf (CreditManager.add_credits exampleCreditDB "u1" 100 "tx1").2 "u1"
       = balanceOf exampleCreditDB "u1" + 100 ∧
     CreditManager.add_credits
         (CreditManager.add_credits exampleCreditDB "u1" 100 "tx1").2 "u1" 100 "tx1"
       = (true, (CreditManager.add_credits exampleCreditDB "u1" 100 "tx1").2)) :=
  add_credits_idempotent_in_reference exampleCreditDB "u1" "tx1" 100 100
    (by decide) (by decide)

/-- C3: a debit exceeding the balance is rejected by both managers with
no ledger write and no balance change, `LocalCreditManager` reporting the
current and required credits (the shortfall); consequently every
sequence of `deduct_credits` calls preserves non-negativity of all
balances in both managers. -/
theorem deduct_credits_never_negative (db : CreditDB) (uid ref : String)
    (c bal : ℤ) (hu : db.users uid = some bal) (hlt : bal < c) :
    (LocalCreditManager.deduct_credits db uid c ref
       = (.insufficient bal c, db)) ∧
    (CreditManager.deduct_credits db uid c ref = (false, db)) ∧
    (∀ db2 : CreditDB, NonNegBalances db2 →
       ∀ calls : List (String × ℤ × String),
         NonNegBalances (runLocalDeducts db2 calls)) ∧
    (∀ db2 : CreditDB, NonNegBalances db2 →
       ∀ calls : List (String × ℤ × String),
         NonNegBalances (runMtnDeducts db2 calls)) := by
  refine ⟨?_, ?_, local_deducts_nonneg, mtn_deducts_nonneg⟩
  · simp [LocalCreditManager.deduct_credits, hu, hlt]
  · have : CreditManager.get_user_credits db uid < c := by
      simpa [CreditManager.get_user_credits, hu] using hlt
    simp [CreditManager.deduct_credits, not_le.mpr this]

/-- Witness for C3: debiting 150 from user `u1` at balance 100. -/
theorem deduct_credits_never_negative_witness :
    (LocalCreditManager.deduct_credits exampleCreditDB "u1" 150 "r1"
       = (.insufficient 100 150, exampleCreditDB)) ∧
    (CreditManager.deduct_credits exampleCreditDB "u1" 150 "r1"
       = (false, exampleCreditDB)) ∧
    (∀ db2 : CreditDB, NonNegBalances db2 →
       ∀ calls : List (String × ℤ × String),
         NonNegBalances (runLocalDeducts db2 calls)) ∧
    (∀ db2 : CreditDB, NonNegBalances db2 →
       ∀ calls : List (String × ℤ × String),
         NonNegBalances (runMtnDeducts db2 calls)) :=
  deduct_credits_never_negative exampleCreditDB "u1" "r1" 150 100
    (by decide) (by decide)

/-- C4: balance conservation — from any store in which every cached
balance agrees with its ledger replay (a fresh account in particular),
any sequence of grants and debits keeps every cached balance equal to
the sum of the committed `credit_transactions` rows of that account; for
the `mtn_payment.py` manager the debit amounts of the sequence are
required to be non-negative. -/
theorem balance_equals_ledger_replay :
    (∀ db : CreditDB, Conserves db →
       ∀ ops : List CreditOp, Conserves (runLocalOps db ops)) ∧
    (∀ db : CreditDB, Conserves db →
       ∀ ops : List CreditOp, DebitsNonneg ops →
         Conserves (runMtnOps db ops)) :=
  ⟨local_ops_conserve, mtn_ops_conserve⟩

/-- Witness for C4: a grant of 100 then a debit of 30 on a fresh
account, through both managers. -/
theorem balance_equals_ledger_replay_witness :
    Conserves (runLocalOps exampleFreshDB
      [CreditOp.grant "u1" 100 "tx1", CreditOp.debit "u1" 30 "r1"]) ∧
    Conserves (runMtnOps emptyCreditDB
      [CreditOp.grant "u1" 100 "tx1", CreditOp.debit "u1" 30 "r1"]) := by
  constructor
  · refine balance_equals_ledger_replay.1 exampleFreshDB ?_ _
    intro u
    by_cases h : u = "u1" <;>
      simp [exampleFreshDB, balanceOf, replayBalance, h]
  · refine balance_equals_ledger_replay.2 emptyCreditDB ?_ _ ?_
    · intro u
      simp [emptyCreditDB, balanceOf, replayBalance]
    · intro op hop u c r he
      subst he
      simp only [List.mem_cons, List.not_mem_nil, or_false] at hop
      rcases hop with h | h
      · exact absurd h (by simp)
      · cases h
        decide

/-- C1 counterexample: on the spec's own example (entries of 10 and 5
credits, owner `u1` at balance 100), `complete_workflow` succeeds with
total 15, yet the owning account's balance is still 100 — not 100 − 15 —
and no credit-ledger row (in particular none referencing the workflow
id) is written, so settlement performs no debit at all. -/
theorem cex_settlement_leaves_balance :
    (system_complete_workflow exampleSystem "wf1" 200).1
      = .ok "wf1" 15
          ((exampleWorkflow.services_used.map (fun e => e.cost_usd)).sum) 2 ∧
    balanceOf (system_complete_workflow exampleSystem "wf1" 200).2.creditDB "u1" = 100 ∧
    balanceOf (system_complete_workflow exampleSystem "wf1" 200).2.creditDB "u1" ≠ 100 - 15 ∧
    (system_complete_workflow exampleSystem "wf1" 200).2.creditDB.transactions = [] := by
  refine ⟨?_, ?_, ?_, ?_⟩ <;>
    simp [system_complete_workflow, MultiServiceTracker.complete_workflow,
      exampleSystem, exampleWorkflow, entryTen, entryFive, balanceOf]

/-- C1 (amended): settling a live workflow whose id has no committed
usage record produces exactly one usage record whose credit total is
the sum of the entries' credits, and leaves the credit store untouched;
the balance decreases by that total only through the gateway's separate
`deduct_credits` call afterwards, whose ledger reference is the
timestamp-derived usage reference, not the workflow id. -/
theorem settle_posts_sum_and_caller_debits (sys : SystemState)
    (wid : String) (sc : ℤ) (ctx : WorkflowContext)
    (hw : sys.tracker.workflows wid = some ctx)
    (hrec : (sys.tracker.records.any fun r => r.id == wid) = false) :
    ((system_complete_workflow sys wid sc).1
       = .ok wid ((ctx.services_used.map (fun e => e.credits_used)).sum)
           ((ctx.services_used.map (fun e => e.cost_usd)).sum)
           ctx.services_used.length ∧
     (system_complete_workflow sys wid sc).2.creditDB = sys.creditDB ∧
     (system_complete_workflow sys wid sc).2.tracker.records
       = sys.tracker.records ++
           [⟨wid, ctx.api_key, ctx.user_id, ctx.workflow_name,
             ctx.services_used,
             (ctx.services_used.map (fun e => e.credits_used)).sum,
             (ctx.services_used.map (fun e => e.cost_usd)).sum, sc⟩]) ∧
    (∀ (user_id usage_ref : String) (bal : ℤ),
       sys.creditDB.users user_id = some bal →
       (ctx.services_used.map (fun e => e.credits_used)).sum ≤ bal →
       hasRef sys.creditDB usage_ref = false →
       balanceOf (gateway_settle_workflow sys wid user_id usage_ref).2.creditDB user_id
         = bal - (ctx.services_used.map (fun e => e.credits_used)).sum ∧
       (gateway_settle_workflow sys wid user_id usage_ref).2.creditDB.transactions
         = sys.creditDB.transactions ++
             [⟨usage_ref, user_id,
               -(ctx.services_used.map (fun e => e.credits_used)).sum⟩]) := by
  constructor
  · refine ⟨?_, ?_, ?_⟩ <;>
      simp [system_complete_workflow, MultiServiceTracker.complete_workflow, hw, hrec]
  · intro user_id usage_ref bal hub htot href
    have hnl : ¬ bal < (ctx.services_used.map (fun e => e.credits_used)).sum :=
      not_lt.mpr htot
    constructor
    · simp [gateway_settle_workflow, system_complete_workflow,
        MultiServiceTracker.complete_workflow, hw, hrec,
        LocalCreditManager.deduct_credits, hub, hnl, href,
        balanceOf, updateUser]
    · simp [gateway_settle_workflow, system_complete_workflow,
        MultiServiceTracker.complete_workflow, hw, hrec,
        LocalCreditManager.deduct_credits, hub, hnl, href]

/-- Witness for the amended C1: the 10 + 5 example settles to one record
of 15 credits with the store untouched, and the gateway's follow-up
deduction under reference `usage_1` lowers the balance from 100 to 85. -/
theorem settle_posts_sum_and_caller_debits_witness :
    (((system_complete_workflow exampleSystem "wf1" 200).1
       = .ok "wf1" ((exampleWorkflow.services_used.map (fun e => e.credits_used)).sum)
           ((exampleWorkflow.services_used.map (fun e => e.cost_usd)).sum)
           exampleWorkflow.services_used.length ∧
     (system_complete_workflow exampleSystem "wf1" 200).2.creditDB = exampleSystem.creditDB ∧
     (system_complete_workflow exampleSystem "wf1" 200).2.tracker.records
       = exampleSystem.tracker.records ++
           [⟨"wf1", exampleWorkflow.api_key, exampleWorkflow.user_id,
             exampleWorkflow.workflow_name, exampleWorkflow.services_used,
             (exampleWorkflow.services_used.map (fun e => e.credits_used)).sum,
             (exampleWorkflow.services_used.map (fun e => e.cost_usd)).sum, 200⟩])) ∧
    (balanceOf (gateway_settle_workflow exampleSystem "wf1" "u1" "usage_1").2.creditDB "u1"
       = 100 - (exampleWorkflow.services_used.map (fun e => e.credits_used)).sum ∧
     (gateway_settle_workflow exampleSystem "wf1" "u1" "usage_1").2.creditDB.transactions
       = exampleSystem.creditDB.transactions ++
           [⟨"usage_1", "u1",
             -(exampleWorkflow.services_used.map (fun e => e.credits_used)).sum⟩]) :=
  ⟨(settle_posts_sum_and_caller_debits exampleSystem "wf1" 200 exampleWorkflow
      (by rfl) (by rfl)).1,
   (settle_posts_sum_and_caller_debits exampleSystem "wf1" 200 exampleWorkflow
      (by rfl) (by rfl)).2 "u1" "usage_1" 100 (by rfl) (by decide) (by rfl)⟩

/-- C5 counterexample: settling the example workflow succeeds once, and
the immediate second `complete_workflow` call with the same workflow id
returns the workflow-not-found error instead of the original settlement
result. -/
theorem cex_second_settlement_errors :
    (MultiServiceTracker.complete_workflow exampleSystem.tracker "wf1" 200).1
      = .ok "wf1" 15
          ((exampleWorkflow.services_used.map (fun e => e.cost_usd)).sum) 2 ∧
    (MultiServiceTracker.complete_workflow
        (MultiServiceTracker.complete_workflow exampleSystem.tracker "wf1" 200).2
        "wf1" 200).1
      = .workflowNotFound ∧
    MultiServiceTracker.CompleteResult.workflowNotFound
      ≠ .ok "wf1" 15
          ((exampleWorkflow.services_used.map (fun e => e.cost_usd)).sum) 2 := by
  refine ⟨?_, ?_, by simp⟩
  · simp [MultiServiceTracker.complete_workflow, exampleSystem, exampleWorkflow,
      entryTen, entryFive]
  · simp [MultiServiceTracker.complete_workflow, exampleSystem, exampleWorkflow,
      entryTen, entryFive]

/-- C5 (amended): after any successful settlement, a repeated
`complete_workflow` call with the same workflow id returns the
workflow-not-found error (the context was deleted), not the original
settlement result. -/
theorem complete_workflow_second_call_not_found (s : TrackerState)
    (wid w : String) (sc sc' t : ℤ) (c : ℚ) (n : ℕ)
    (h : (MultiServiceTracker.complete_workflow s wid sc).1 = .ok w t c n) :
    (MultiServiceTracker.complete_workflow
        (MultiServiceTracker.complete_workflow s wid sc).2 wid sc').1
      = .workflowNotFound := by
  unfold MultiServiceTracker.complete_workflow at h ⊢
  cases hw : s.workflows wid with
  | none => simp [hw] at h
  | some ctx =>
      simp only [hw] at h ⊢
      by_cases hr : (s.records.any fun r => r.id == wid) = true
      · simp [hr] at h
      · simp only [Bool.not_eq_true] at hr
        simp [hr]

/-- Witness for the amended C5 on the example workflow. -/
theorem complete_workflow_second_call_not_found_witness :
    (MultiServiceTracker.complete_workflow
        (MultiServiceTracker.complete_workflow exampleSystem.tracker "wf1" 200).2
        "wf1" 200).1 = .workflowNotFound :=
  complete_workflow_second_call_not_found exampleSystem.tracker "wf1" "wf1" 200 200
    15 ((exampleWorkflow.services_used.map (fun e => e.cost_usd)).sum) 2
    (by simp [MultiServiceTracker.complete_workflow, exampleSystem,
      exampleWorkflow, entryTen, entryFive])

/-- C6 counterexample: recording 5000 `gpt-4o-mini` tokens into a
workflow that already holds an entry of 10 credits succeeds and returns
`credits_used = 5` — the newly added entry's price — while the
cumulative credit total of the workflow is 15, and 5 ≠ 15. -/
theorem cex_record_returns_entry_credits :
    (MultiServiceTracker.add_service_usage exampleOpenTracker "wf1"
        .gpt "gpt-4o-mini" 5000 "tokens").1
      = .ok ⟨.gpt, "gpt-4o-mini", 5000, "tokens", 5,
             (ServicePricing.calculate_service_cost .gpt "gpt-4o-mini" 5000 "tokens").cost_usd⟩ 5 ∧
    (((MultiServiceTracker.add_service_usage exampleOpenTracker "wf1"
        .gpt "gpt-4o-mini" 5000 "tokens").2.workflows "wf1").map
        (fun c2 => (c2.services_used.map (fun e => e.credits_used)).sum))
      = some 15 ∧
    (5 : ℤ) ≠ 15 := by
  have h5 : (ServicePricing.calculate_service_cost .gpt "gpt-4o-mini" 5000 "tokens").credits_used = 5 := by
    have h : ((5000 : ℤ) : ℚ) / 1000 * 1 = ((5 : ℤ) : ℚ) := by norm_num
    simp only [ServicePricing.calculate_service_cost, ServicePricing.PRICING]
    norm_num [h, pyInt_eq_floor]
  refine ⟨?_, ?_, by decide⟩
  · simp [MultiServiceTracker.add_service_usage, exampleOpenTracker, h5]
  · simp [MultiServiceTracker.add_service_usage, exampleOpenTracker, entryTen, h5]

/-- C6 (amended): `add_service_usage` on an unknown (or already settled
and hence deleted) workflow id fails with the workflow-not-found error
and changes nothing; on a live workflow it appends the entry priced by
the catalog and returns that entry's own `credits_used` (the cumulative
total grows by exactly that amount but is not what is returned). -/
theorem add_service_usage_spec (s : TrackerState) (wid : String)
    (st : ServiceType) (p : String) (u : ℤ) (ut : String) :
    (s.workflows wid = none →
       MultiServiceTracker.add_service_usage s wid st p u ut
         = (.workflowNotFound, s)) ∧
    (∀ ctx, s.workflows wid = some ctx →
       (MultiServiceTracker.add_service_usage s wid st p u ut).1
         = .ok ⟨st, p, u, ut,
                (ServicePricing.calculate_service_cost st p u ut).credits_used,
                (ServicePricing.calculate_service_cost st p u ut).cost_usd⟩
               (ServicePricing.calculate_service_cost st p u ut).credits_used ∧
       ((MultiServiceTracker.add_service_usage s wid st p u ut).2.workflows wid).map
           (fun c2 => (c2.services_used.map (fun e => e.credits_used)).sum)
         = some ((ctx.services_used.map (fun e => e.credits_used)).sum
             + (ServicePricing.calculate_service_cost st p u ut).credits_used)) := by
  constructor
  · intro hw
    simp [MultiServiceTracker.add_service_usage, hw]
  · intro ctx hw
    simp [MultiServiceTracker.add_service_usage, hw]

/-- Witness for the amended C6 on a live one-entry workflow. -/
theorem add_service_usage_spec_witness :
    (MultiServiceTracker.add_service_usage exampleOpenTracker "wf1"
        .gpt "gpt-4o-mini" 5000 "tokens").1
      = .ok ⟨.gpt, "gpt-4o-mini", 5000, "tokens",
             (ServicePricing.calculate_service_cost .gpt "gpt-4o-mini" 5000 "tokens").credits_used,
             (ServicePricing.calculate_service_cost .gpt "gpt-4o-mini" 5000 "tokens").cost_usd⟩
            (ServicePricing.calculate_service_cost .gpt "gpt-4o-mini" 5000 "tokens").credits_used ∧
    (((MultiServiceTracker.add_service_usage exampleOpenTracker "wf1"
        .gpt "gpt-4o-mini" 5000 "tokens").2.workflows "wf1").map
        (fun c2 => (c2.services_used.map (fun e => e.credits_used)).sum))
      = some (((⟨"wf1", "key1", "u1", "voice_chat", "/api/v1/agent/message",
            [entryTen]⟩ : WorkflowContext).services_used.map (fun e => e.credits_used)).sum
          + (ServicePricing.calculate_service_cost .gpt "gpt-4o-mini" 5000 "tokens").credits_used) :=
  (add_service_usage_spec exampleOpenTracker "wf1" .gpt "gpt-4o-mini" 5000 "tokens").2
    ⟨"wf1", "key1", "u1", "voice_chat", "/api/v1/agent/message", [entryTen]⟩ (by rfl)
